import Mathlib

/-!
Shallow embedding of the resilient completion gateway and the
session/configuration layer of the chat application, together with proofs
of its specified properties.

Sources embedded:
  - src/services/geminiService.ts : sendMessageToGemini (tryGenerate),
    generateVeoVideo (tryGenerateVideo), and the ChatInterface config merge.
  - src/unnamed/part_000 (ConfigContext) : loginClient, loginAdmin,
    restoreSession, updateGlobalConfig.

The network is abstracted as an environment function from the attempt
index to the outcome the completion service produces for that attempt
(the code issues exactly one network call per retry index, using the
credential at that index). Time is modelled in integer milliseconds,
exactly the unit the code obtains from Date.getTime().
-/

/-- One image attachment: opaque base64 data plus a MIME type
(interface ImageAttachment in src/services/geminiService.ts). -/
structure ImageAttachment where
  data : String
  mimeType : String
deriving DecidableEq, Repr

/-- One prior conversation turn as passed to sendMessageToGemini. -/
structure HistoryMsg where
  role : String
  text : String
deriving DecidableEq, Repr

/-- The config argument of sendMessageToGemini. -/
structure GenConfig where
  apiKeys : List String
  systemInstruction : String
deriving DecidableEq, Repr

/-- Network-level outcome of one generateContent attempt: either the call
resolves with a response whose text field is the given string (empty
string models an absent or empty text payload, both falsy in the source),
or it rejects with an error whose toString() is the given message. -/
inductive Outcome where
  | success (text : String)
  | failure (msg : String)
deriving DecidableEq, Repr

/-- Boolean substring test on character lists, mirroring JavaScript
String.prototype.includes. -/
def charsContain (s sub : List Char) : Bool :=
  if sub.isPrefixOf s then true
  else
    match s with
    | [] => false
    | _ :: t => charsContain t sub

/-- JavaScript s.includes(sub). -/
def strIncludes (s sub : String) : Bool :=
  charsContain s.data sub.data

/-- The catch-clause test of tryGenerate and tryGenerateVideo:
error.toString().includes("429") or error.toString().includes("403"). -/
def isQuotaAuthErr (msg : String) : Bool :=
  strIncludes msg "429" || strIncludes msg "403"

/-- The recursive retry worker of sendMessageToGemini
(src/services/geminiService.ts, tryGenerate). Returns the settled result
together with the list of retry indices at which a network call was
actually issued, in order.

Fidelity notes, relative to the try/catch in the source:
  - "Message cannot be empty" is thrown inside the try before the network
    call, is caught, contains neither "429" nor "403", and is rethrown, so
    it surfaces directly with no network call made;
  - "Empty response" is thrown after a successful call whose text is falsy,
    is caught, contains neither "429" nor "403", and is rethrown, so it
    surfaces with exactly that one call made;
  - a rejected network call with a quota/auth message recurses to the next
    index from inside the catch; any other rejection is rethrown. -/
def tryGenerate (message : String) (images : List ImageAttachment)
    (apiKeys : List String) (net : Nat → Outcome) (retryIdx : Nat) :
    Except String String × List Nat :=
  if _h : apiKeys.length ≤ retryIdx then
    (Except.error "All API keys exhausted.", [])
  else if message.isEmpty && images.isEmpty then
    (Except.error "Message cannot be empty", [])
  else
    match net retryIdx with
    | Outcome.success t =>
      if t.isEmpty then (Except.error "Empty response", [retryIdx])
      else (Except.ok t, [retryIdx])
    | Outcome.failure m =>
      if isQuotaAuthErr m then
        ((tryGenerate message images apiKeys net (retryIdx + 1)).1,
          retryIdx :: (tryGenerate message images apiKeys net (retryIdx + 1)).2)
      else (Except.error m, [retryIdx])
termination_by apiKeys.length - retryIdx
decreasing_by all_goals omega

/-- sendMessageToGemini (src/services/geminiService.ts): run the retry
worker from index 0. History and system instruction only shape the request
payload, which the environment abstracts. -/
def sendMessageToGemini (message : String) (images : List ImageAttachment)
    (_history : List HistoryMsg) (config : GenConfig) (net : Nat → Outcome) :
    Except String String × List Nat :=
  tryGenerate message images config.apiKeys net 0

/-- Terminal outcome of one generateVideos job for a given retry index:
either the polled operation completes carrying the optional
response.generatedVideos[0].video.uri (none models an absent field), or
the attempt rejects with an error whose toString() is the given message. -/
inductive VideoOutcome where
  | completed (uri : Option String)
  | failure (msg : String)
deriving DecidableEq, Repr

/-- The recursive retry worker of generateVeoVideo
(src/services/geminiService.ts, tryGenerateVideo). The polling loop is
abstracted by the environment returning the terminal state of the job.
"Failed to generate video URI" is thrown inside the try when the uri is
falsy (absent or empty), is caught, contains neither "429" nor "403", and
is rethrown, so it propagates with no further retry. -/
def tryGenerateVideo (apiKeys : List String) (net : Nat → VideoOutcome)
    (retryIdx : Nat) : Except String String :=
  if _h : apiKeys.length ≤ retryIdx then
    Except.error "All API keys exhausted."
  else
    match net retryIdx with
    | VideoOutcome.completed uri =>
      match uri with
      | none => Except.error "Failed to generate video URI"
      | some u =>
        -- the source reads config.apiKeys[retryIdx], in range thanks to the
        -- guard above; getD with an arbitrary default models that read
        if u.isEmpty then Except.error "Failed to generate video URI"
        else Except.ok (u ++ "&key=" ++ apiKeys.getD retryIdx "")
    | VideoOutcome.failure m =>
      if isQuotaAuthErr m then tryGenerateVideo apiKeys net (retryIdx + 1)
      else Except.error m
termination_by apiKeys.length - retryIdx
decreasing_by omega

/-- generateVeoVideo (src/services/geminiService.ts): run the video retry
worker from index 0. -/
def generateVeoVideo (apiKeys : List String) (net : Nat → VideoOutcome) :
    Except String String :=
  tryGenerateVideo apiKeys net 0

/-- Per-user configuration override (User.config in the remote users
table); every field is optional, absent fields modelled as none. -/
structure UserConfig where
  aiName : Option String
  aiPersona : Option String
  devName : Option String
  apiKeys : Option (List String)
deriving DecidableEq, Repr

/-- A User row as mapped from the remote users table
(src/unnamed/part_000). createdAt is the creation timestamp in
milliseconds, the unit new Date(user.created_at).getTime() yields. -/
structure UserRec where
  id : String
  username : String
  accessKey : String
  role : String
  createdAt : Int
  profile : String
  config : UserConfig
deriving DecidableEq, Repr

/-- The GlobalConfig singleton (AppConfig in the source). -/
structure AppConfig where
  aiName : String
  aiPersona : String
  devName : String
  apiKeys : List String
  avatarUrl : String
deriving DecidableEq, Repr

/-- The discriminated result of loginClient and loginAdmin
(interface LoginResult in src/unnamed/part_000). -/
structure LoginResult where
  success : Bool
  message : Option String
deriving DecidableEq, Repr

/-- Durable local key-value storage (window.localStorage), a total map
from slot names to optionally present string values. -/
def LocalStorage : Type := String → Option String

/-- localStorage.setItem. -/
def setItem (s : LocalStorage) (k v : String) : LocalStorage :=
  fun k2 => if k2 = k then some v else s k2

/-- localStorage.removeItem. -/
def removeItem (s : LocalStorage) (k : String) : LocalStorage :=
  fun k2 => if k2 = k then none else s k2

/-- The fixed localStorage slot name used for the active session key. -/
def sessionSlotName : String := "central_gpt_active_session"

/-- Process-local client state: the in-memory currentUser plus the durable
local storage. -/
structure ClientState where
  currentUser : Option UserRec
  localStorage : LocalStorage

/-- The 200,000-hour access-key expiry threshold expressed in
milliseconds. The source computes diffHours = diffMs / (1000 * 60 * 60)
in exact (here: rational) arithmetic and tests diffHours >= 200000, which
holds iff diffMs >= 200000 * (1000 * 60 * 60). -/
def expiryThresholdMs : Int := 200000 * (1000 * 60 * 60)

/-- loginClient (src/unnamed/part_000): look up the single user row whose
access_key matches the key and whose role is "user" (keys are unique, so
the first match models .single()); reject when absent; reject with the
expiry message when the elapsed time since creation reaches the
threshold; otherwise set currentUser and persist the key under the fixed
slot name. -/
def loginClient (users : List UserRec) (now : Int) (key : String)
    (st : ClientState) : LoginResult × ClientState :=
  match users.find? (fun u => u.accessKey == key && u.role == "user") with
  | none => ({ success := false, message := some "Invalid Access Key." }, st)
  | some user =>
    if expiryThresholdMs ≤ now - user.createdAt then
      ({ success := false,
         message := some "Access Key expired (200.000 hours)." }, st)
    else
      ({ success := true, message := none },
       { currentUser := some user,
         localStorage := setItem st.localStorage sessionSlotName key })

/-- loginAdmin (src/unnamed/part_000): look up by username, key and role
"admin"; no expiry test appears anywhere in this function (note it does
not even read the clock). -/
def loginAdmin (users : List UserRec) (username key : String)
    (st : ClientState) : LoginResult × ClientState :=
  match users.find?
      (fun u => u.username == username && u.accessKey == key
        && u.role == "admin") with
  | none =>
    ({ success := false, message := some "Invalid Admin Credentials." }, st)
  | some user =>
    ({ success := true, message := none },
     { currentUser := some user,
       localStorage := setItem st.localStorage sessionSlotName key })

/-- restoreSession (src/unnamed/part_000): read the persisted key; the
guard tests falsiness of the read value, so both an absent slot and a
persisted empty string do nothing; when the user row is gone the slot is
cleared; when the elapsed time reaches the threshold and the role is not
"admin" the slot is cleared; otherwise currentUser is set (without
re-persisting). The source never throws on this path. -/
def restoreSession (users : List UserRec) (now : Int) (st : ClientState) :
    ClientState :=
  match st.localStorage sessionSlotName with
  | none => st
  | some savedSessionKey =>
    if savedSessionKey.isEmpty then st
    else
      match users.find? (fun u => u.accessKey == savedSessionKey) with
      | none =>
        { st with localStorage := removeItem st.localStorage sessionSlotName }
      | some user =>
        if expiryThresholdMs ≤ now - user.createdAt ∧ user.role ≠ "admin" then
          { st with localStorage := removeItem st.localStorage sessionSlotName }
        else
          { st with currentUser := some user }

/-- The effective per-request configuration built in ChatInterface. -/
structure EffectiveConfig where
  aiName : String
  aiPersona : String
  devName : String
  apiKeys : List String
deriving DecidableEq, Repr

/-- JavaScript x || y on an optional string field: an absent field and the
empty string (both falsy) fall back to y. -/
def jsOrString (x : Option String) (y : String) : String :=
  match x with
  | none => y
  | some s => if s.isEmpty then y else s

/-- The config merge of ChatInterface (src/services/geminiService.ts,
second document): each string field is userConfig.field || global.field,
and apiKeys is userConfig.apiKeys when present with length > 0, else the
global list. -/
def effectiveConfig (globalConfig : AppConfig) (userConfig : UserConfig) :
    EffectiveConfig :=
  { aiName := jsOrString userConfig.aiName globalConfig.aiName
    aiPersona := jsOrString userConfig.aiPersona globalConfig.aiPersona
    devName := jsOrString userConfig.devName globalConfig.devName
    apiKeys :=
      match userConfig.apiKeys with
      | some ks => if 0 < ks.length then ks else globalConfig.apiKeys
      | none => globalConfig.apiKeys }

/-- A Partial AppConfig as accepted by updateGlobalConfig: every field
optional. -/
structure AppConfigPartial where
  aiName : Option String
  aiPersona : Option String
  devName : Option String
  apiKeys : Option (List String)
  avatarUrl : Option String
deriving DecidableEq, Repr

/-- The app_config table row, snake_case columns as fetched and updated. -/
structure AppConfigRow where
  ai_name : String
  ai_persona : String
  dev_name : String
  api_keys : List String
  avatar_url : String
deriving DecidableEq, Repr

/-- updateGlobalConfig (src/unnamed/part_000) applied to the stored row:
the dbUpdate object receives ai_name, dev_name and avatar_url when the
corresponding field is truthy (present and non-empty), and api_keys when
present (an empty array is truthy in JavaScript); no other column is ever
written, in particular ai_persona is absent from the update. -/
def updateGlobalConfig (newConfig : AppConfigPartial) (row : AppConfigRow) :
    AppConfigRow :=
  let row1 :=
    match newConfig.aiName with
    | some v => if v.isEmpty then row else { row with ai_name := v }
    | none => row
  let row2 :=
    match newConfig.devName with
    | some v => if v.isEmpty then row1 else { row1 with dev_name := v }
    | none => row1
  let row3 :=
    match newConfig.avatarUrl with
    | some v => if v.isEmpty then row2 else { row2 with avatar_url := v }
    | none => row2
  match newConfig.apiKeys with
  | some ks => { row3 with api_keys := ks }
  | none => row3

/-- Example environment: the first credential is rate-limited, the second
returns text "hi" (the worked example of the design document). -/
def netKeyAthenB : Nat → Outcome :=
  fun i => if i = 0 then Outcome.failure "got status: 429" else Outcome.success "hi"

/-- Example environment: every attempt is rate-limited. -/
def netAll429 : Nat → Outcome :=
  fun _ => Outcome.failure "got status: 429"

/-- Example environment: the first credential is permission-denied, the
second call resolves but with an empty text payload. -/
def netThenEmpty : Nat → Outcome :=
  fun i => if i = 0 then Outcome.failure "got status: 403" else Outcome.success ""

/-- Example video environment: the first credential is rate-limited, the
second job completes with a result locator. -/
def netVideo : Nat → VideoOutcome :=
  fun i =>
    if i = 0 then VideoOutcome.failure "got status: 429"
    else VideoOutcome.completed (some "https://cdn/video.mp4")

/-- Empty per-user override. -/
def emptyUserConfig : UserConfig :=
  { aiName := none, aiPersona := none, devName := none, apiKeys := none }

/-- Example client-role user, created at epoch time 0. -/
def clientUser : UserRec :=
  { id := "u1", username := "alice", accessKey := "VALID-KEY-123",
    role := "user", createdAt := 0, profile := "", config := emptyUserConfig }

/-- Example admin-role user, created at epoch time 0. -/
def adminUser : UserRec :=
  { id := "u2", username := "root", accessKey := "ADMIN-KEY-9",
    role := "admin", createdAt := 0, profile := "", config := emptyUserConfig }

/-- Fresh client state: nobody logged in, empty storage. -/
def freshState : ClientState :=
  { currentUser := none, localStorage := fun _ => none }

/-- Client state whose storage slot holds the admin key. -/
def adminSessionState : ClientState :=
  { currentUser := none,
    localStorage := setItem (fun _ => none) sessionSlotName "ADMIN-KEY-9" }

/-- Client state whose storage slot holds a key of a deleted user. -/
def danglingSessionState : ClientState :=
  { currentUser := none,
    localStorage := setItem (fun _ => none) sessionSlotName "GONE-KEY" }

/-- Example global configuration. -/
def exampleGlobal : AppConfig :=
  { aiName := "CentralGPT", aiPersona := "global persona", devName := "XdpzQ",
    apiKeys := ["gk1", "gk2"], avatarUrl := "" }

/-- Per-user override whose persona field is present but holds the empty
string. -/
def emptyPersonaOverride : UserConfig :=
  { aiName := none, aiPersona := some "", devName := none, apiKeys := none }

/-- Per-user override with non-empty fields and a non-empty key list. -/
def fullOverride : UserConfig :=
  { aiName := some "Nova", aiPersona := some "user persona",
    devName := some "dev2", apiKeys := some ["uk1"] }

/-! ## Theorems -/

theorem tryGenerate_quota_skip (message : String) (images : List ImageAttachment)
    (apiKeys : List String) (net : Nat → Outcome)
    (hne : (message.isEmpty && images.isEmpty) = false) :
    ∀ d i, i + d ≤ apiKeys.length →
      (∀ j, i ≤ j → j < i + d →
        ∃ m, net j = Outcome.failure m ∧ isQuotaAuthErr m = true) →
      tryGenerate message images apiKeys net i =
        ((tryGenerate message images apiKeys net (i + d)).1,
          List.range' i d ++ (tryGenerate message images apiKeys net (i + d)).2) := by
  intro d
  induction d with
  | zero =>
    intro i _ _
    simp
  | succ d ih =>
    intro i hlen hfail
    obtain ⟨m, hm, hq⟩ := hfail i le_rfl (by omega)
    have hstep := ih (i + 1) (by omega)
      (fun j h1 h2 => hfail j (by omega) (by omega))
    conv_lhs => rw [tryGenerate]
    rw [dif_neg (by omega : ¬ apiKeys.length ≤ i)]
    simp only [hne, Bool.false_eq_true, if_false, hm, hq, if_true]
    rw [hstep]
    have harith : i + 1 + d = i + (d + 1) := by omega
    rw [harith, List.range'_succ]
    simp

/-- Claim C1: for a credential list of length N whose first N-1 attempts
fail with a quota/authorization signal and whose Nth attempt succeeds
with non-empty text, sendMessageToGemini returns the Nth text and issues
exactly N network attempts, at indices 0, 1, ..., N-1 in list order. -/
theorem gemini_failover_returns_nth (message : String)
    (images : List ImageAttachment) (history : List HistoryMsg)
    (config : GenConfig) (net : Nat → Outcome) (t : String)
    (hne : (message.isEmpty && images.isEmpty) = false)
    (hN : 0 < config.apiKeys.length)
    (hfail : ∀ j, j < config.apiKeys.length - 1 →
      ∃ m, net j = Outcome.failure m ∧ isQuotaAuthErr m = true)
    (hsucc : net (config.apiKeys.length - 1) = Outcome.success t)
    (ht : t.isEmpty = false) :
    sendMessageToGemini message images history config net
      = (Except.ok t, List.range config.apiKeys.length) := by
  unfold sendMessageToGemini
  have hskip := tryGenerate_quota_skip message images config.apiKeys net hne
    (config.apiKeys.length - 1) 0 (by omega)
    (fun j _ h2 => hfail j (by omega))
  rw [Nat.zero_add] at hskip
  have hlast : tryGenerate message images config.apiKeys net
      (config.apiKeys.length - 1)
      = (Except.ok t, [config.apiKeys.length - 1]) := by
    rw [tryGenerate, dif_neg (by omega)]
    simp only [hne, Bool.false_eq_true, if_false, hsucc, ht]
  rw [hskip, hlast]
  have htrace : List.range' 0 (config.apiKeys.length - 1)
      ++ [config.apiKeys.length - 1] = List.range config.apiKeys.length := by
    have h1 : [config.apiKeys.length - 1]
        = List.range' (0 + (config.apiKeys.length - 1)) 1 := by
      rw [List.range'_one, Nat.zero_add]
    rw [h1, List.range'_append_1, List.range_eq_range']
    congr 1
    omega
  rw [htrace]

/-- Closed witness for claim C1: two credentials, the first rate-limited,
the second returning "hi". -/
theorem gemini_failover_returns_nth_witness :
    sendMessageToGemini "hello" [] [] ⟨["keyA", "keyB"], "be terse"⟩ netKeyAthenB
      = (Except.ok "hi", List.range 2) := by
  have h := gemini_failover_returns_nth "hello" [] [] ⟨["keyA", "keyB"], "be terse"⟩
    netKeyAthenB "hi" (by decide) (by decide)
    (fun j hj => by
      have hj0 : j = 0 := by
        simp only [List.length_cons, List.length_nil] at hj
        omega
      subst hj0
      exact ⟨"got status: 429", rfl, by decide⟩)
    (by rfl) (by decide)
  exact h

/-- Claim C2: with an empty credential list sendMessageToGemini fails with
the distinct exhaustion error and issues no network attempt; and more
generally, when every attempt across the whole list fails with a
quota/authorization signal, the result is that same distinct exhaustion
failure (with every index attempted in order), never a silent empty
result. -/
theorem gemini_credentials_exhausted (message : String)
    (images : List ImageAttachment) (history : List HistoryMsg)
    (si : String) (net : Nat → Outcome) :
    sendMessageToGemini message images history ⟨[], si⟩ net
      = (Except.error "All API keys exhausted.", [])
    ∧ ∀ keys : List String, (message.isEmpty && images.isEmpty) = false →
        (∀ j, j < keys.length →
          ∃ m, net j = Outcome.failure m ∧ isQuotaAuthErr m = true) →
        sendMessageToGemini message images history ⟨keys, si⟩ net
          = (Except.error "All API keys exhausted.", List.range keys.length) := by
  constructor
  · unfold sendMessageToGemini
    rw [tryGenerate, dif_pos (by simp)]
  · intro keys hne hfail
    unfold sendMessageToGemini
    have hskip := tryGenerate_quota_skip message images keys net hne
      keys.length 0 (by omega) (fun j _ h2 => hfail j (by omega))
    rw [Nat.zero_add] at hskip
    have hend : tryGenerate message images keys net keys.length
        = (Except.error "All API keys exhausted.", []) := by
      rw [tryGenerate, dif_pos (le_refl _)]
    rw [hskip, hend]
    simp [List.range_eq_range']

/-- Closed witness for claim C2: both credentials rate-limited. -/
theorem gemini_credentials_exhausted_witness :
    sendMessageToGemini "hello" [] [] ⟨["keyA", "keyB"], ""⟩ netAll429
      = (Except.error "All API keys exhausted.", List.range 2) := by
  have h := (gemini_credentials_exhausted "hello" [] [] "" netAll429).2
    ["keyA", "keyB"] (by decide)
    (fun j _ => ⟨"got status: 429", rfl, by decide⟩)
  exact h

/-- Claim C3: when the attempt at position i resolves at the network level
but with an empty text payload (after quota/authorization failures at all
earlier positions), sendMessageToGemini fails immediately with the empty
response error, attempting exactly indices 0, ..., i and never a later
credential. -/
theorem gemini_empty_response_no_retry (message : String)
    (images : List ImageAttachment) (history : List HistoryMsg)
    (keys : List String) (si : String) (net : Nat → Outcome) (i : Nat)
    (hne : (message.isEmpty && images.isEmpty) = false)
    (hi : i < keys.length)
    (hfail : ∀ j, j < i →
      ∃ m, net j = Outcome.failure m ∧ isQuotaAuthErr m = true)
    (hempty : net i = Outcome.success "") :
    sendMessageToGemini message images history ⟨keys, si⟩ net
      = (Except.error "Empty response", List.range (i + 1)) := by
  unfold sendMessageToGemini
  have hskip := tryGenerate_quota_skip message images keys net hne i 0
    (by omega) (fun j _ h2 => hfail j (by omega))
  rw [Nat.zero_add] at hskip
  have he : ("" : String).isEmpty = true := by decide
  have hstop : tryGenerate message images keys net i
      = (Except.error "Empty response", [i]) := by
    rw [tryGenerate, dif_neg (by omega)]
    simp only [hne, Bool.false_eq_true, if_false, hempty, he, if_true]
  rw [hskip, hstop]
  have htrace : List.range' 0 i ++ [i] = List.range (i + 1) := by
    have h1 : [i] = List.range' (0 + i) 1 := by
      rw [List.range'_one, Nat.zero_add]
    rw [h1, List.range'_append_1, List.range_eq_range']
    congr 1
    omega
  rw [htrace]

/-- Closed witness for claim C3: the first credential permission-denied,
the second resolving with an empty text payload. -/
theorem gemini_empty_response_no_retry_witness :
    sendMessageToGemini "hello" [] [] ⟨["keyA", "keyB"], ""⟩ netThenEmpty
      = (Except.error "Empty response", List.range 2) := by
  have h := gemini_empty_response_no_retry "hello" [] [] ["keyA", "keyB"] ""
    netThenEmpty 1 (by decide) (by decide)
    (fun j hj => by
      have hj0 : j = 0 := by omega
      subst hj0
      exact ⟨"got status: 403", rfl, by decide⟩)
    (by rfl)
  exact h

/-- Claim C8: a call whose message text and attachment list are both empty
is rejected -- the result is an error and the attempt trace is empty, so
no network request is ever issued -- for every credential list and
environment. -/
theorem gemini_empty_input_rejected (history : List HistoryMsg)
    (config : GenConfig) (net : Nat → Outcome) :
    (sendMessageToGemini "" [] history config net).2 = []
    ∧ ∃ e, (sendMessageToGemini "" [] history config net).1 = Except.error e := by
  unfold sendMessageToGemini
  rw [tryGenerate]
  by_cases h : config.apiKeys.length ≤ 0
  · rw [dif_pos h]
    exact ⟨rfl, "All API keys exhausted.", rfl⟩
  · rw [dif_neg h]
    have he : (("" : String).isEmpty && ([] : List ImageAttachment).isEmpty) = true := by
      decide
    rw [he]
    exact ⟨rfl, "Message cannot be empty", rfl⟩

theorem tryGenerateVideo_ok_shape (apiKeys : List String)
    (net : Nat → VideoOutcome) :
    ∀ d i, apiKeys.length - i = d → ∀ s,
      tryGenerateVideo apiKeys net i = Except.ok s →
      ∃ k, k < apiKeys.length ∧ ∃ uri,
        net k = VideoOutcome.completed (some uri) ∧ uri.isEmpty = false ∧
        s = uri ++ "&key=" ++ apiKeys.getD k "" := by
  intro d
  induction d with
  | zero =>
    intro i hd s hs
    rw [tryGenerateVideo, dif_pos (by omega)] at hs
    exact Except.noConfusion hs
  | succ d ih =>
    intro i hd s hs
    have hi : i < apiKeys.length := by omega
    rw [tryGenerateVideo, dif_neg (by omega)] at hs
    cases hnet : net i with
    | completed uri =>
      cases uri with
      | none =>
        simp only [hnet] at hs
        exact Except.noConfusion hs
      | some u =>
        simp only [hnet] at hs
        by_cases hu : u.isEmpty = true
        · rw [if_pos hu] at hs
          exact Except.noConfusion hs
        · rw [if_neg hu] at hs
          cases hs
          exact ⟨i, hi, u, hnet, by simpa using hu, rfl⟩
    | failure m =>
      simp only [hnet] at hs
      by_cases hq : isQuotaAuthErr m = true
      · rw [if_pos hq] at hs
        exact ih (i + 1) (by omega) s hs
      · rw [if_neg hq] at hs
        exact Except.noConfusion hs

/-- Claim C10: every successful generateVeoVideo call does not return the
bare result locator: the returned string is the succeeding attempt's
locator with the succeeding credential appended as a key query parameter,
so the secret credential is embedded in the returned value. -/
theorem veo_video_appends_credential (apiKeys : List String)
    (net : Nat → VideoOutcome) (s : String)
    (hs : generateVeoVideo apiKeys net = Except.ok s) :
    ∃ k, k < apiKeys.length ∧ ∃ uri,
      net k = VideoOutcome.completed (some uri) ∧ uri.isEmpty = false ∧
      s = uri ++ "&key=" ++ apiKeys.getD k "" ∧ s ≠ uri := by
  obtain ⟨k, hk, uri, hnet, hu, hsval⟩ :=
    tryGenerateVideo_ok_shape apiKeys net (apiKeys.length - 0) 0 rfl s hs
  refine ⟨k, hk, uri, hnet, hu, hsval, ?_⟩
  intro hcontra
  rw [hsval] at hcontra
  have hlen := congrArg String.length hcontra
  simp only [String.length_append] at hlen
  have h5 : ("&key=" : String).length = 5 := by decide
  rw [h5] at hlen
  omega

/-- Closed witness for claim C10: the first credential rate-limited, the
second job completing with a locator; the result carries keyB. -/
theorem veo_video_appends_credential_witness :
    ∃ k, k < (["keyA", "keyB"] : List String).length ∧ ∃ uri,
      netVideo k = VideoOutcome.completed (some uri) ∧ uri.isEmpty = false ∧
      "https://cdn/video.mp4&key=keyB"
        = uri ++ "&key=" ++ (["keyA", "keyB"] : List String).getD k "" ∧
      "https://cdn/video.mp4&key=keyB" ≠ uri := by
  apply veo_video_appends_credential ["keyA", "keyB"] netVideo
    "https://cdn/video.mp4&key=keyB"
  rw [generateVeoVideo, tryGenerateVideo, dif_neg (by decide)]
  have h0 : netVideo 0 = VideoOutcome.failure "got status: 429" := rfl
  simp only [h0]
  rw [if_pos (by decide)]
  rw [tryGenerateVideo, dif_neg (by decide)]
  have h1 : netVideo 1 = VideoOutcome.completed (some "https://cdn/video.mp4") := rfl
  simp only [h1]
  rw [if_neg (by decide)]
  rfl

/-- Claim C4: for a role "user" record matched by access key, loginClient
rejects with the expiry message exactly when the elapsed time since the
creation timestamp reaches 200,000 hours, and at any strictly smaller
elapsed time (in particular one millisecond before the boundary) it
succeeds, establishes the session, and persists the key in the fixed
localStorage slot. -/
theorem loginClient_expiry_boundary (users : List UserRec) (now : Int)
    (key : String) (st : ClientState) (u : UserRec)
    (hfind : users.find? (fun v => v.accessKey == key && v.role == "user")
      = some u) :
    (expiryThresholdMs ≤ now - u.createdAt →
      loginClient users now key st
        = ({ success := false,
             message := some "Access Key expired (200.000 hours)." }, st))
    ∧ (now - u.createdAt < expiryThresholdMs →
      loginClient users now key st
        = ({ success := true, message := none },
           { currentUser := some u,
             localStorage := setItem st.localStorage sessionSlotName key })) := by
  constructor
  · intro h
    simp only [loginClient, hfind]
    rw [if_pos h]
  · intro h
    simp only [loginClient, hfind]
    rw [if_neg (by omega)]

/-- Closed witness for claim C4: with creation at time 0, login at the
exact boundary is rejected as expired, and login one millisecond before
the boundary succeeds and persists the key under the fixed slot name. -/
theorem loginClient_expiry_boundary_witness :
    (loginClient [clientUser] expiryThresholdMs "VALID-KEY-123" freshState).1
      = { success := false, message := some "Access Key expired (200.000 hours)." }
    ∧ (loginClient [clientUser] (expiryThresholdMs - 1) "VALID-KEY-123"
        freshState).1 = { success := true, message := none }
    ∧ (loginClient [clientUser] (expiryThresholdMs - 1) "VALID-KEY-123"
        freshState).2.currentUser = some clientUser
    ∧ (loginClient [clientUser] (expiryThresholdMs - 1) "VALID-KEY-123"
        freshState).2.localStorage sessionSlotName = some "VALID-KEY-123" := by
  have hfind : [clientUser].find?
      (fun v => v.accessKey == "VALID-KEY-123" && v.role == "user")
      = some clientUser := by decide
  have h1 := (loginClient_expiry_boundary [clientUser] expiryThresholdMs
    "VALID-KEY-123" freshState clientUser hfind).1 (by decide)
  have h2 := (loginClient_expiry_boundary [clientUser] (expiryThresholdMs - 1)
    "VALID-KEY-123" freshState clientUser hfind).2 (by decide)
  refine ⟨by rw [h1], by rw [h2], by rw [h2], ?_⟩
  rw [h2]
  simp [setItem]

/-- Claim C5: the access-key expiry check is skipped entirely for the
admin role in both operations: loginAdmin succeeds whenever the admin
lookup matches, independent of any clock (the function reads no time at
all), and restoreSession at every elapsed time neither clears the slot
nor drops the session for a stored (truthy, hence non-empty) key naming a
user whose role is "admin". -/
theorem admin_exempt_from_expiry (users : List UserRec) (st : ClientState) :
    (∀ username key u,
      users.find? (fun v => v.username == username && v.accessKey == key
        && v.role == "admin") = some u →
      loginAdmin users username key st
        = ({ success := true, message := none },
           { currentUser := some u,
             localStorage := setItem st.localStorage sessionSlotName key }))
    ∧ (∀ now key u, st.localStorage sessionSlotName = some key →
      key.isEmpty = false →
      users.find? (fun v => v.accessKey == key) = some u →
      u.role = "admin" →
      restoreSession users now st = { st with currentUser := some u }) := by
  constructor
  · intro username key u hfind
    simp only [loginAdmin, hfind]
  · intro now key u hslot hkey hfind hrole
    simp only [restoreSession, hslot]
    rw [if_neg (by simp [hkey])]
    simp only [hfind]
    rw [if_neg (by simp [hrole])]

/-- Closed witness for claim C5: the admin logs in and restores a session
long after the 200,000-hour boundary. -/
theorem admin_exempt_from_expiry_witness :
    (loginAdmin [adminUser] "root" "ADMIN-KEY-9" freshState).1.success = true
    ∧ (restoreSession [adminUser] (expiryThresholdMs * 1000)
        adminSessionState).currentUser = some adminUser := by
  have h1 := (admin_exempt_from_expiry [adminUser] freshState).1
    "root" "ADMIN-KEY-9" adminUser (by decide)
  have h2 := (admin_exempt_from_expiry [adminUser] adminSessionState).2
    (expiryThresholdMs * 1000) "ADMIN-KEY-9" adminUser (by rfl) (by decide)
    (by decide) rfl
  exact ⟨by rw [h1], by rw [h2]⟩

/-- Claim C6: restoreSession with a persisted (truthy, hence non-empty)
key whose user row no longer exists clears the fixed storage slot and
establishes no session; the embedding is a total function returning a
plain state, mirroring the absence of any throw on this path in the
source. -/
theorem restoreSession_deleted_user_clears (users : List UserRec) (now : Int)
    (st : ClientState) (key : String)
    (hslot : st.localStorage sessionSlotName = some key)
    (hkey : key.isEmpty = false)
    (hmiss : users.find? (fun v => v.accessKey == key) = none)
    (hcu : st.currentUser = none) :
    (restoreSession users now st).currentUser = none
    ∧ (restoreSession users now st).localStorage sessionSlotName = none := by
  have hres : restoreSession users now st
      = { st with localStorage := removeItem st.localStorage sessionSlotName } := by
    simp only [restoreSession, hslot]
    rw [if_neg (by simp [hkey])]
    simp only [hmiss]
  rw [hres]
  exact ⟨hcu, by simp [removeItem]⟩

/-- Closed witness for claim C6: the stored key points at no existing
user; the slot is cleared and nobody is logged in. -/
theorem restoreSession_deleted_user_clears_witness :
    (restoreSession [clientUser] 0 danglingSessionState).currentUser = none
    ∧ (restoreSession [clientUser] 0 danglingSessionState).localStorage
        sessionSlotName = none :=
  restoreSession_deleted_user_clears [clientUser] 0 danglingSessionState
    "GONE-KEY" (by rfl) (by decide) (by decide) rfl

/-- Counterexample to claim C7 as stated: a per-user override that carries
the persona field with the empty string does not take precedence; the
merged persona is the global one, not the supplied override value. -/
theorem effectiveConfig_override_counterexample :
    emptyPersonaOverride.aiPersona = some ""
    ∧ (effectiveConfig exampleGlobal emptyPersonaOverride).aiPersona ≠ ""
    ∧ (effectiveConfig exampleGlobal emptyPersonaOverride).aiPersona
        = exampleGlobal.aiPersona := by
  exact ⟨rfl, by decide, rfl⟩

/-- Claim C7 amended: each per-user override string field that is present
and non-empty takes precedence over the corresponding GlobalConfig field,
while an absent or empty-string override falls back to the global value;
the credential list equals the per-user list exactly when the user has a
non-empty one, and falls back to GlobalConfig's list when the user's list
is absent or empty. -/
theorem effectiveConfig_merge (g : AppConfig) (u : UserConfig) :
    (∀ v, u.aiName = some v → v ≠ "" → (effectiveConfig g u).aiName = v)
    ∧ ((u.aiName = none ∨ u.aiName = some "") →
        (effectiveConfig g u).aiName = g.aiName)
    ∧ (∀ v, u.aiPersona = some v → v ≠ "" →
        (effectiveConfig g u).aiPersona = v)
    ∧ ((u.aiPersona = none ∨ u.aiPersona = some "") →
        (effectiveConfig g u).aiPersona = g.aiPersona)
    ∧ (∀ v, u.devName = some v → v ≠ "" → (effectiveConfig g u).devName = v)
    ∧ ((u.devName = none ∨ u.devName = some "") →
        (effectiveConfig g u).devName = g.devName)
    ∧ (∀ ks, u.apiKeys = some ks → ks ≠ [] →
        (effectiveConfig g u).apiKeys = ks)
    ∧ ((u.apiKeys = none ∨ u.apiKeys = some []) →
        (effectiveConfig g u).apiKeys = g.apiKeys) := by
  refine ⟨?_, ?_, ?_, ?_, ?_, ?_, ?_, ?_⟩
  · intro v hv hne
    simp only [effectiveConfig, jsOrString, hv]
    rw [if_neg (by simpa [String.isEmpty_iff] using hne)]
  · rintro (hv | hv) <;> simp [effectiveConfig, jsOrString, hv, String.isEmpty_iff]
  · intro v hv hne
    simp only [effectiveConfig, jsOrString, hv]
    rw [if_neg (by simpa [String.isEmpty_iff] using hne)]
  · rintro (hv | hv) <;> simp [effectiveConfig, jsOrString, hv, String.isEmpty_iff]
  · intro v hv hne
    simp only [effectiveConfig, jsOrString, hv]
    rw [if_neg (by simpa [String.isEmpty_iff] using hne)]
  · rintro (hv | hv) <;> simp [effectiveConfig, jsOrString, hv, String.isEmpty_iff]
  · intro ks hks hne
    simp only [effectiveConfig, hks]
    rw [if_pos (by simpa [List.length_pos] using hne)]
  · rintro (hks | hks) <;> simp [effectiveConfig, hks]

/-- Closed witness for the amended claim C7: non-empty overrides win, an
absent override falls back to the global value. -/
theorem effectiveConfig_merge_witness :
    (effectiveConfig exampleGlobal fullOverride).aiName = "Nova"
    ∧ (effectiveConfig exampleGlobal fullOverride).apiKeys = ["uk1"]
    ∧ (effectiveConfig exampleGlobal emptyUserConfig).aiPersona
        = exampleGlobal.aiPersona := by
  refine ⟨(effectiveConfig_merge exampleGlobal fullOverride).1 "Nova" rfl
      (by decide),
    (effectiveConfig_merge exampleGlobal fullOverride).2.2.2.2.2.2.1 ["uk1"]
      rfl (by decide),
    (effectiveConfig_merge exampleGlobal emptyUserConfig).2.2.2.1
      (Or.inl rfl)⟩

/-- Claim C9: updateGlobalConfig never writes the persona column: for
every partial configuration, in particular one carrying an aiPersona
value, the stored ai_persona is left unchanged by the update. -/
theorem updateGlobalConfig_never_writes_persona
    (newConfig : AppConfigPartial) (row : AppConfigRow) :
    (updateGlobalConfig newConfig row).ai_persona = row.ai_persona := by
  obtain ⟨n, p, d, k, a⟩ := newConfig
  cases n <;> cases d <;> cases a <;> cases k <;>
    simp only [updateGlobalConfig] <;> split_ifs <;> rfl
